import Mathlib

/-!
Verification of the MilkFlow security core (js/security.js, js/app.js).

Shallow embedding conventions:
* Timestamps are `Int` milliseconds (JS `Date.now()` values); `localStorage`
  entries are explicit values threaded through the functions
  (the attempt log is a `List LoginAttempt`, the session slot an
  `Option Session`, the audit log a `List AuditEntry`).
* Platform crypto primitives (SubtleCrypto SHA-256, PBKDF2, AES-GCM,
  `btoa`/`atob`, `JSON.stringify`/`JSON.parse`, TextEncoder) are not code
  of this repository; they are modelled as explicit function parameters and
  the theorems take the standard guarantees of those primitives as
  hypotheses at exactly the points where they are used.
* `Math.ceil(x / 60000)` on an integer `x` is `(x + 59999) / 60000`
  (Lean `Int` division is Euclidean, i.e. floor division for a positive
  divisor).
* Strings under test are ASCII, so JS UTF-16 `length` agrees with Lean
  `String.length`.
-/

namespace MilkSecurity

/-- JS truthiness of an optional string field: `undefined` and `""` are falsy. -/
def jsTruthy : Option String → Bool
  | none => false
  | some s => s != ""

/-- JS `a || b` for an optional string with a string default. -/
def jsOr (a : Option String) (b : String) : String :=
  match a with
  | none => b
  | some s => if s = "" then b else s

-- =============== PASSWORD HASHING (security.js lines 15-39) ===============

/-- Function `hashPassword` (security.js lines 15-28). The SHA-256 hex digest of
`salt + password` is the parameter `H`; the salt generated by
`generateSalt()` when the argument is falsy (absent or `""`) is the
parameter `gsalt`. Returns `{hash, salt}` as a pair. -/
def hashPassword (H : String → String) (gsalt : String) (password : String)
    (salt : Option String) : String × String :=
  let s := if jsTruthy salt then salt.getD "" else gsalt
  (H (s ++ password), s)

/-- Function `verifyPassword` (security.js lines 30-33): recompute and compare. -/
def verifyPassword (H : String → String) (gsalt : String)
    (password storedHash : String) (salt : Option String) : Bool :=
  (hashPassword H gsalt password salt).1 == storedHash

-- =============== SESSION MANAGEMENT (security.js lines 41-93) ===============

def SESSION_TIMEOUT_MS : Int := 30 * 60 * 1000

structure SessionUser where
  username : String
  role : String
  name : String
deriving DecidableEq, Repr

structure Session where
  username : String
  role : String
  name : String
  createdAt : Int
  lastActivity : Int
  token : String
  expiresAt : Int
deriving DecidableEq, Repr

/-- Function `createSession` (security.js lines 47-60); the random token is a
parameter, `now` is `Date.now()`. The built session is also what is
written to the store. -/
def createSession (user : SessionUser) (token : String) (now : Int) : Session :=
  { username := user.username, role := user.role, name := user.name,
    createdAt := now, lastActivity := now, token := token,
    expiresAt := now + SESSION_TIMEOUT_MS }

/-- Function `getSession` (security.js lines 62-78) as a function of the stored
session and the clock; returns the result and the store afterwards
(`destroySession` removes the stored value). -/
def getSession (store : Option Session) (now : Int) : Option Session × Option Session :=
  match store with
  | none => (none, none)
  | some s => if now > s.expiresAt then (none, none) else (some s, some s)

/-- Function `refreshSession` (security.js lines 80-88): read through `getSession`;
if a session came back, advance `lastActivity` and `expiresAt` and write
it back. Returns the result and the store afterwards. -/
def refreshSession (store : Option Session) (now : Int) : Option Session × Option Session :=
  match getSession store now with
  | (some s, _) =>
    let s2 := { s with lastActivity := now, expiresAt := now + SESSION_TIMEOUT_MS }
    (some s2, some s2)
  | (none, store2) => (none, store2)

-- =============== LOGIN RATE LIMITING (security.js lines 148-200) ===============

def MAX_LOGIN_ATTEMPTS : Nat := 5

def LOCKOUT_DURATION_MS : Int := 5 * 60 * 1000

def ATTEMPT_WINDOW_MS : Int := 15 * 60 * 1000

structure LoginAttempt where
  username : String
  timestamp : Int
  success : Bool
deriving DecidableEq, Repr

/-- Function `recordLoginAttempt` (security.js lines 154-166): push the new attempt,
then keep only attempts with `timestamp > Date.now() - ATTEMPT_WINDOW_MS`. -/
def recordLoginAttempt (attempts : List LoginAttempt) (username : String)
    (success : Bool) (now : Int) : List LoginAttempt :=
  let attempts2 := attempts ++ [{ username := username, timestamp := now, success := success }]
  let cutoff := now - ATTEMPT_WINDOW_MS
  attempts2.filter fun a => decide (cutoff < a.timestamp)

structure LockStatus where
  locked : Bool
  remainingMinutes : Option Int
  remainingAttempts : Option Int
deriving DecidableEq, Repr

/-- The failed attempts with `timestamp > Date.now() - LOCKOUT_DURATION_MS`
(security.js lines 178-181). -/
def recentFailures (attempts : List LoginAttempt) (now : Int) : List LoginAttempt :=
  attempts.filter fun a => !a.success && decide (now - LOCKOUT_DURATION_MS < a.timestamp)

/-- Model of `Math.min(...)` over a list of timestamps; the empty case is unreachable
at the one call site (the list there has length ≥ MAX_LOGIN_ATTEMPTS). -/
def listMin : List Int → Int
  | [] => 0
  | t :: ts => ts.foldl min t

/-- Function `isLoginLocked` (security.js lines 176-200). `remainingMin` is
`Math.ceil(remainingMs / 60000)`. -/
def isLoginLocked (attempts : List LoginAttempt) (now : Int) : LockStatus :=
  let rf := recentFailures attempts now
  if MAX_LOGIN_ATTEMPTS ≤ rf.length then
    let oldestInWindow := listMin (rf.map fun a => a.timestamp)
    let unlockTime := oldestInWindow + LOCKOUT_DURATION_MS
    let remainingMs := unlockTime - now
    let remainingMin := (remainingMs + 59999) / 60000
    { locked := true, remainingMinutes := some remainingMin, remainingAttempts := none }
  else
    { locked := false, remainingMinutes := none,
      remainingAttempts := some ((MAX_LOGIN_ATTEMPTS : Int) - rf.length) }

-- =============== PASSWORD VALIDATION (security.js lines 230-271) ===============

/-- The JS regex test `/[a-z]/.test(p)`. -/
def hasLower (p : String) : Bool :=
  p.data.any fun c => decide ('a' ≤ c) && decide (c ≤ 'z')

/-- The JS regex test `/[A-Z]/.test(p)`. -/
def hasUpper (p : String) : Bool :=
  p.data.any fun c => decide ('A' ≤ c) && decide (c ≤ 'Z')

/-- The JS regex test `/[0-9]/.test(p)`. -/
def hasDigit (p : String) : Bool :=
  p.data.any fun c => decide ('0' ≤ c) && decide (c ≤ '9')

/-- The JS regex test `/[^a-zA-Z0-9]/.test(p)`. -/
def hasSpecial (p : String) : Bool :=
  p.data.any fun c =>
    !((decide ('a' ≤ c) && decide (c ≤ 'z')) ||
      (decide ('A' ≤ c) && decide (c ≤ 'Z')) ||
      (decide ('0' ≤ c) && decide (c ≤ '9')))

structure Strength where
  level : Nat
  label : String
  color : String
deriving DecidableEq, Repr

/-- Function `getPasswordStrength` (security.js lines 255-271). -/
def getPasswordStrength (p : String) : Strength :=
  if p = "" then ⟨0, "None", "#64748b"⟩
  else
    let score :=
      (if 6 ≤ p.length then 1 else 0) + (if 8 ≤ p.length then 1 else 0) +
      (if 12 ≤ p.length then 1 else 0) + (if hasLower p then 1 else 0) +
      (if hasUpper p then 1 else 0) + (if hasDigit p then 1 else 0) +
      (if hasSpecial p then 1 else 0)
    if score ≤ 2 then ⟨1, "Weak", "#ef4444"⟩
    else if score ≤ 4 then ⟨2, "Fair", "#eab308"⟩
    else if score ≤ 5 then ⟨3, "Good", "#22c55e"⟩
    else ⟨4, "Strong", "#14b8a6"⟩

structure PasswordValidation where
  valid : Bool
  issues : List String
  strength : Strength
deriving DecidableEq, Repr

/-- Function `validatePassword` (security.js lines 230-253). Each `if` guard keeps
the JS truthiness test `password && ...` (`p ≠ ""`); the first one is
`!password || password.length < 6`. -/
def validatePassword (p : String) : PasswordValidation :=
  let issues :=
    (if p = "" ∨ p.length < 6 then ["Must be at least 6 characters"] else []) ++
    (if p ≠ "" ∧ 128 < p.length then ["Must be under 128 characters"] else []) ++
    (if p ≠ "" ∧ hasLower p = false then ["Must contain at least one lowercase letter"] else []) ++
    (if p ≠ "" ∧ hasUpper p = false then ["Must contain at least one uppercase letter"] else []) ++
    (if p ≠ "" ∧ hasDigit p = false then ["Must contain at least one number"] else [])
  { valid := issues.isEmpty, issues := issues, strength := getPasswordStrength p }

-- =============== AUDIT LOG (security.js lines 373-398) ===============

structure AuditEntry where
  action : String
  details : String
  username : String
  timestamp : String
  userAgent : String
deriving DecidableEq, Repr

/-- The entry built inside `auditLog` (security.js lines 379-385):
`username || 'system'` and `navigator.userAgent.substring(0, 100)`. -/
def mkAuditEntry (action details : String) (username : Option String)
    (timestamp userAgent : String) : AuditEntry :=
  { action := action, details := details, username := jsOr username "system",
    timestamp := timestamp, userAgent := userAgent.take 100 }

/-- Function `auditLog` (security.js lines 376-390): `unshift` the new entry, then
`if (logs.length > 200) logs.length = 200`, i.e. keep the first 200. -/
def auditLog (logs : List AuditEntry) (action details : String)
    (username : Option String) (timestamp userAgent : String) : List AuditEntry :=
  (mkAuditEntry action details username timestamp userAgent :: logs).take 200

-- =============== BACKUP ENCRYPTION (security.js lines 290-371, 412-426) ===============

structure EncryptedBlob where
  encrypted : String
  salt : String
  iv : String
  version : String
  isEncrypted : Bool
deriving DecidableEq, Repr

/-- The platform primitives used by `encryptBackupData`/`decryptBackupData`:
`JSON.stringify`/`JSON.parse`, `TextEncoder`/`TextDecoder` (UTF-8 bytes as
`List Nat`), PBKDF2-SHA-256 key derivation (100000 iterations, 256-bit key),
AES-GCM with its authentication tag, and `btoa ∘ bytes→binary-string` /
`binary-string→bytes ∘ atob` (the source helpers `arrayBufferToBase64` and
`base64ToArrayBuffer`, security.js lines 412-426). Failing JS calls
(`atob`, `crypto.subtle.decrypt`, `JSON.parse`) throw; they are modelled
with `Option`. -/
structure CryptoPlatform (α : Type) where
  stringify : α → String
  parse : String → Option α
  encode : String → List Nat
  decode : List Nat → Option String
  kdf : String → List Nat → List Nat
  aeadEnc : List Nat → List Nat → List Nat → List Nat
  aeadDec : List Nat → List Nat → List Nat → Option (List Nat)
  toB64 : List Nat → String
  fromB64 : String → Option (List Nat)

/-- Function `encryptBackupData` (security.js lines 291-333); the fresh random
`salt` (16 bytes) and `iv` (12 bytes) are parameters. -/
def encryptBackupData {α : Type} (P : CryptoPlatform α) (data : α)
    (passphrase : String) (salt iv : List Nat) : EncryptedBlob :=
  let jsonStr := P.stringify data
  let key := P.kdf passphrase salt
  let encrypted := P.aeadEnc key iv (P.encode jsonStr)
  { encrypted := P.toB64 encrypted, salt := P.toB64 salt, iv := P.toB64 iv,
    version := "2.0", isEncrypted := true }

/-- Function `decryptBackupData` (security.js lines 335-371): decode the three
base64 fields, re-derive the key, AES-GCM decrypt, UTF-8 decode, then
`JSON.parse`; any failing step makes the whole call fail. -/
def decryptBackupData {α : Type} (P : CryptoPlatform α) (blob : EncryptedBlob)
    (passphrase : String) : Option α := do
  let salt ← P.fromB64 blob.salt
  let iv ← P.fromB64 blob.iv
  let ciphertext ← P.fromB64 blob.encrypted
  let key := P.kdf passphrase salt
  let decrypted ← P.aeadDec key iv ciphertext
  let str ← P.decode decrypted
  P.parse str

-- =============== APP LAYER (app.js lines 125-150, 215-245) ===============

/-- A stored user record; `password` is the legacy plaintext field,
`passwordHash`/`salt` the hashed credential (fields are `Option` because
either side may be absent, and JS truthiness treats `""` like absence). -/
structure UserRec where
  username : String
  role : String
  name : String
  password : Option String
  passwordHash : Option String
  salt : Option String
deriving DecidableEq, Repr

/-- Function `login` (app.js lines 215-245) acting on the attempt log and session
store; returns `(success, attempt log afterwards, session store afterwards)`.
`H`/`gsalt` model the digest as in `hashPassword`; `token` is the random
session token. -/
def login (H : String → String) (gsalt : String) (users : List UserRec)
    (attempts : List LoginAttempt) (sessionStore : Option Session)
    (username password role token : String) (now : Int) :
    Bool × List LoginAttempt × Option Session :=
  let rl := isLoginLocked attempts now
  if rl.locked then
    (false, attempts, sessionStore)
  else
    match users.find? fun u => u.username == username && u.role == role with
    | some user =>
      if jsTruthy user.passwordHash then
        if verifyPassword H gsalt password (user.passwordHash.getD "") user.salt then
          let s := createSession ⟨user.username, user.role, user.name⟩ token now
          (true, recordLoginAttempt attempts username true now, some s)
        else
          (false, recordLoginAttempt attempts username false now, sessionStore)
      else
        (false, recordLoginAttempt attempts username false now, sessionStore)
    | none => (false, recordLoginAttempt attempts username false now, sessionStore)

/-- The known weak default passwords (app.js line 130). -/
def defaultWeakPasswords : List String :=
  ["owner123", "staff123", "admin", "password", "1234"]

/-- The per-record body of the `migratePasswords` loop (app.js lines
132-145). `hashFn` models `await MilkSecurity.hashPassword(newPassword)`
(digest plus freshly generated salt). -/
def migrateUser (hashFn : String → String × String) (u : UserRec) : UserRec :=
  if jsTruthy u.password && !jsTruthy u.passwordHash then
    let newPassword :=
      if defaultWeakPasswords.contains (u.password.getD "") then
        if u.role == "owner" then "Owner@123" else "Staff@123"
      else u.password.getD ""
    let result := hashFn newPassword
    { u with passwordHash := some result.1, salt := some result.2, password := none }
  else u

/-- Function `migratePasswords` (app.js lines 125-150) as the resulting user list
(the store holds this list afterwards whether or not anything changed). -/
def migratePasswords (hashFn : String → String × String) (users : List UserRec) :
    List UserRec :=
  users.map (migrateUser hashFn)

-- =============== concrete fixtures used by scenario claims ===============

/-- A demo user store: one owner whose credential was hashed with the
identity digest and salt "s" from the password "Correct1" (so the stored
hash is "sCorrect1"). -/
def demoUsers : List UserRec :=
  [⟨"owner", "owner", "O", none, some "sCorrect1", some "s"⟩]

/-- One wrong-password login against `demoUsers` at time `t`, with the
identity digest, threading the attempt log and session store. -/
def demoLoginStep (st : List LoginAttempt × Option Session) (t : Int) :
    Bool × List LoginAttempt × Option Session :=
  login (fun s => s) "g" demoUsers st.1 st.2 "owner" "Wrong1" "owner" "tok" t

/-- The attempt log and session store after five wrong-password logins at
0 s, 30 s, 60 s, 90 s and 120 s (all within two minutes). -/
def demoState : List LoginAttempt × Option Session :=
  let r1 := demoLoginStep ([], none) 0
  let r2 := demoLoginStep (r1.2.1, r1.2.2) 30000
  let r3 := demoLoginStep (r2.2.1, r2.2.2) 60000
  let r4 := demoLoginStep (r3.2.1, r3.2.2) 90000
  let r5 := demoLoginStep (r4.2.1, r4.2.2) 120000
  (r5.2.1, r5.2.2)

/-- A tiny concrete platform satisfying the guarantees the backup-crypto
theorem assumes, used only to witness it: data is a string carried as-is,
byte lists pass through reversible character coding, the derived key is
the passphrase's bytes followed by the salt, and the toy AEAD prepends the
key and checks it on decryption. -/
def demoPlatform : CryptoPlatform String where
  stringify := fun s => s
  parse := fun s => some s
  encode := fun s => s.data.map Char.toNat
  decode := fun bs => some (String.mk (bs.map Char.ofNat))
  kdf := fun pass salt => (pass.data.map Char.toNat) ++ salt
  aeadEnc := fun key _iv m => key ++ m
  aeadDec := fun key _iv c =>
    if c.take key.length = key then some (c.drop key.length) else none
  toB64 := fun bs => String.mk (bs.map Char.ofNat)
  fromB64 := fun s => some (s.data.map Char.toNat)

-- =============== helper lemmas ===============

lemma foldl_min_choice (ts : List Int) (t : Int) :
    List.foldl min t ts = t ∨ List.foldl min t ts ∈ ts := by
  induction ts generalizing t with
  | nil => exact Or.inl rfl
  | cons t2 ts ih =>
    simp only [List.foldl_cons]
    rcases ih (min t t2) with h | h
    · rcases min_choice t t2 with hm | hm
      · exact Or.inl (h.trans hm)
      · refine Or.inr ?_
        rw [h.trans hm]
        exact List.mem_cons_self _ _
    · exact Or.inr (List.mem_cons_of_mem _ h)

lemma foldl_min_le (ts : List Int) (t : Int) :
    List.foldl min t ts ≤ t ∧ ∀ x ∈ ts, List.foldl min t ts ≤ x := by
  induction ts generalizing t with
  | nil => simp
  | cons t2 ts ih =>
    obtain ⟨h1, h2⟩ := ih (min t t2)
    refine ⟨h1.trans (min_le_left _ _), ?_⟩
    intro x hx
    rcases List.mem_cons.mp hx with rfl | hx
    · exact h1.trans (min_le_right _ _)
    · exact h2 x hx

lemma listMin_spec (xs : List Int) (hxs : xs ≠ []) :
    listMin xs ∈ xs ∧ ∀ x ∈ xs, listMin xs ≤ x := by
  match xs, hxs with
  | t :: ts, _ =>
    constructor
    · rcases foldl_min_choice ts t with h | h
      · simp [listMin, h]
      · simp [listMin, List.mem_cons_of_mem, h]
    · intro x hx
      rcases List.mem_cons.mp hx with rfl | hx
      · exact (foldl_min_le ts x).1
      · exact (foldl_min_le ts t).2 x hx

/-- On `Int`, `(r + 59999) / 60000` is the ceiling of the real quotient
`r / 60000`, characterised by the two inequalities of rounding up. -/
lemma ceil_div_60000_charact (r : Int) :
    ((r + 59999) / 60000 - 1) * 60000 < r ∧ r ≤ (r + 59999) / 60000 * 60000 := by
  have h := Int.ediv_add_emod (r + 59999) 60000
  have h2 := Int.emod_nonneg (r + 59999) (by norm_num : (60000 : Int) ≠ 0)
  have h3 := Int.emod_lt_of_pos (r + 59999) (by norm_num : (0 : Int) < 60000)
  omega

lemma filter_subsumes {α : Type} (p q : α → Bool) (l : List α)
    (h : ∀ a, q a = true → p a = true) :
    (l.filter p).filter q = l.filter q := by
  induction l with
  | nil => rfl
  | cons a l ih =>
    by_cases hq : q a = true
    · have hp := h a hq
      simp [List.filter_cons, hp, hq, ih]
    · by_cases hp : p a = true
      · simp [List.filter_cons, hp, hq, ih]
      · simp [List.filter_cons, hp, hq, ih]

lemma listMin_append_single (xs : List Int) (y : Int) (hxs : xs ≠ []) :
    listMin (xs ++ [y]) = min (listMin xs) y := by
  match xs, hxs with
  | t :: ts, _ => simp [listMin, List.foldl_append]

/-- Recording a failed attempt at the current time appends it to the
qualifying failures: it passes both the 15-minute retention filter and the
5-minute lockout filter, and every previously qualifying failure survives
the retention pruning. -/
lemma recentFailures_record (st : List LoginAttempt) (u : String) (now : Int) :
    recentFailures (recordLoginAttempt st u false now) now =
      recentFailures st now ++ [⟨u, now, false⟩] := by
  have himp : ∀ a : LoginAttempt,
      (!a.success && decide (now - LOCKOUT_DURATION_MS < a.timestamp)) = true →
      decide (now - ATTEMPT_WINDOW_MS < a.timestamp) = true := by
    intro a ha
    simp only [Bool.and_eq_true, decide_eq_true_eq] at ha ⊢
    have hcmp : (LOCKOUT_DURATION_MS : Int) ≤ ATTEMPT_WINDOW_MS := by decide
    omega
  show ((st ++ [(⟨u, now, false⟩ : LoginAttempt)]).filter
      fun a => decide (now - ATTEMPT_WINDOW_MS < a.timestamp)).filter
      (fun a => !a.success && decide (now - LOCKOUT_DURATION_MS < a.timestamp)) =
    st.filter (fun a => !a.success && decide (now - LOCKOUT_DURATION_MS < a.timestamp)) ++
      [⟨u, now, false⟩]
  rw [filter_subsumes _ _ _ himp, List.filter_append]
  congr 1
  have hlt : now - LOCKOUT_DURATION_MS < now := by
    have h0 : (0 : Int) < LOCKOUT_DURATION_MS := by decide
    omega
  simp [hlt]

-- =============== C1 ===============

/-- C1: `isLoginLocked` reports locked exactly when the number of failed
attempts with timestamps within the last 5 minutes is at least 5; when
locked, there is an oldest qualifying failure timestamp `t0`, the unlock
time is `t0 + LOCKOUT_DURATION_MS`, and `remainingMinutes` is the remaining
time `t0 + LOCKOUT_DURATION_MS - now` in whole minutes rounded up. -/
theorem isLoginLocked_correct (attempts : List LoginAttempt) (now : Int) :
    ((isLoginLocked attempts now).locked = true ↔
      MAX_LOGIN_ATTEMPTS ≤
        attempts.countP fun a =>
          decide (a.success = false ∧ now - LOCKOUT_DURATION_MS < a.timestamp)) ∧
    ((isLoginLocked attempts now).locked = true →
      ∃ t0,
        (∃ a ∈ attempts, a.success = false ∧
          now - LOCKOUT_DURATION_MS < a.timestamp ∧ a.timestamp = t0) ∧
        (∀ a ∈ attempts, a.success = false →
          now - LOCKOUT_DURATION_MS < a.timestamp → t0 ≤ a.timestamp) ∧
        ∃ m, (isLoginLocked attempts now).remainingMinutes = some m ∧
          (m - 1) * 60000 < t0 + LOCKOUT_DURATION_MS - now ∧
          t0 + LOCKOUT_DURATION_MS - now ≤ m * 60000) := by
  have hpred : ∀ a : LoginAttempt,
      (!a.success && decide (now - LOCKOUT_DURATION_MS < a.timestamp)) =
      decide (a.success = false ∧ now - LOCKOUT_DURATION_MS < a.timestamp) := by
    intro a
    cases h : a.success <;> simp [h]
  have hcount :
      (recentFailures attempts now).length =
      attempts.countP fun a =>
        decide (a.success = false ∧ now - LOCKOUT_DURATION_MS < a.timestamp) := by
    rw [recentFailures, ← List.countP_eq_length_filter]
    exact List.countP_congr (fun a _ => by rw [hpred a])
  by_cases h : MAX_LOGIN_ATTEMPTS ≤ (recentFailures attempts now).length
  · constructor
    · rw [← hcount]
      simp [isLoginLocked, h]
    · intro _
      have hne : recentFailures attempts now ≠ [] := by
        intro hnil
        rw [hnil] at h
        simp [MAX_LOGIN_ATTEMPTS] at h
      have hmapne : (recentFailures attempts now).map (fun a => a.timestamp) ≠ [] := by
        simpa using hne
      obtain ⟨hmem, hle⟩ := listMin_spec _ hmapne
      set t0 := listMin ((recentFailures attempts now).map fun a => a.timestamp) with ht0
      refine ⟨t0, ?_, ?_, ?_⟩
      · obtain ⟨a, ha, hat⟩ := List.mem_map.mp hmem
        have := List.mem_filter.mp ha
        refine ⟨a, this.1, ?_, ?_, hat⟩
        · have hb := this.2
          cases hs : a.success
          · rfl
          · rw [hs] at hb
            simp at hb
        · have hb := this.2
          simp only [Bool.and_eq_true, decide_eq_true_eq] at hb
          exact hb.2
      · intro a ha hs hts
        have hmem2 : a ∈ recentFailures attempts now := by
          rw [recentFailures, List.mem_filter]
          exact ⟨ha, by simp [hs, hts]⟩
        exact hle _ (List.mem_map.mpr ⟨a, hmem2, rfl⟩)
      · refine ⟨(t0 + LOCKOUT_DURATION_MS - now + 59999) / 60000, ?_, ?_, ?_⟩
        · simp only [isLoginLocked, if_pos h]
        · exact (ceil_div_60000_charact (t0 + LOCKOUT_DURATION_MS - now)).1
        · exact (ceil_div_60000_charact (t0 + LOCKOUT_DURATION_MS - now)).2
  · constructor
    · rw [← hcount]
      simp [isLoginLocked, h]
    · intro hl
      simp [isLoginLocked, h] at hl

/-- Witness for C1 at a concrete locked log: five failures at minutes 0..4,
read at time 240001 ms. -/
theorem isLoginLocked_correct_witness :
    (isLoginLocked
      [⟨"u", 0, false⟩, ⟨"u", 60000, false⟩, ⟨"u", 120000, false⟩,
       ⟨"u", 180000, false⟩, ⟨"u", 240000, false⟩] 240001).locked = true ∧
    (∃ t0,
        (∃ a ∈ [(⟨"u", 0, false⟩ : LoginAttempt), ⟨"u", 60000, false⟩, ⟨"u", 120000, false⟩,
           ⟨"u", 180000, false⟩, ⟨"u", 240000, false⟩], a.success = false ∧
          240001 - LOCKOUT_DURATION_MS < a.timestamp ∧ a.timestamp = t0) ∧
        (∀ a ∈ [(⟨"u", 0, false⟩ : LoginAttempt), ⟨"u", 60000, false⟩, ⟨"u", 120000, false⟩,
           ⟨"u", 180000, false⟩, ⟨"u", 240000, false⟩], a.success = false →
          240001 - LOCKOUT_DURATION_MS < a.timestamp → t0 ≤ a.timestamp) ∧
        ∃ m, (isLoginLocked
          [⟨"u", 0, false⟩, ⟨"u", 60000, false⟩, ⟨"u", 120000, false⟩,
           ⟨"u", 180000, false⟩, ⟨"u", 240000, false⟩] 240001).remainingMinutes = some m ∧
          (m - 1) * 60000 < t0 + LOCKOUT_DURATION_MS - 240001 ∧
          t0 + LOCKOUT_DURATION_MS - 240001 ≤ m * 60000) := by
  refine ⟨by decide, ?_⟩
  exact (isLoginLocked_correct
    [⟨"u", 0, false⟩, ⟨"u", 60000, false⟩, ⟨"u", 120000, false⟩,
     ⟨"u", 180000, false⟩, ⟨"u", 240000, false⟩] 240001).2 (by decide)

-- =============== C2 ===============

/-- C2 counterexample: five failures at minutes 0..4 lock the account, and a
sixth failure is recorded at 250 s; at time 310 s — strictly after the
claimed latest possible unlock time, earliest failure (0) + 5 min — the
code still reports locked with one minute remaining, so the reported unlock
time is later than the earliest qualifying failure's timestamp plus 5
minutes. -/
theorem loginLock_sixth_attempt_counterexample :
    (isLoginLocked (recordLoginAttempt (recordLoginAttempt (recordLoginAttempt
        (recordLoginAttempt (recordLoginAttempt [] "u" false 0) "u" false 60000)
        "u" false 120000) "u" false 180000) "u" false 240000) 240000).locked = true ∧
    (0 : Int) + LOCKOUT_DURATION_MS < 310000 ∧
    isLoginLocked (recordLoginAttempt (recordLoginAttempt (recordLoginAttempt
        (recordLoginAttempt (recordLoginAttempt (recordLoginAttempt [] "u" false 0)
        "u" false 60000) "u" false 120000) "u" false 180000) "u" false 240000)
        "u" false 250000) 310000 =
      { locked := true, remainingMinutes := some 1, remainingAttempts := none } := by
  decide

/-- C2 amended: after 5 recorded failed attempts within 5 minutes
`isLoginLocked` reports locked, and recording a 6th failed attempt leaves
the result of `isLoginLocked` — in particular the unlock time — unchanged
at the moment of recording; at later times, however, the 5-minute window
slides, so the reported unlock time can move past the original earliest
failure's timestamp plus 5 minutes (as the counterexample shows). -/
theorem loginLock_sixth_attempt (st : List LoginAttempt) (u : String) (now : Int)
    (h5 : MAX_LOGIN_ATTEMPTS ≤ (recentFailures st now).length)
    (hts : ∀ a ∈ st, a.timestamp ≤ now) :
    (isLoginLocked st now).locked = true ∧
    isLoginLocked (recordLoginAttempt st u false now) now = isLoginLocked st now := by
  have hrf := recentFailures_record st u now
  have hne : recentFailures st now ≠ [] := by
    intro h0
    rw [h0] at h5
    simp [MAX_LOGIN_ATTEMPTS] at h5
  have h5' : MAX_LOGIN_ATTEMPTS ≤
      (recentFailures (recordLoginAttempt st u false now) now).length := by
    rw [hrf, List.length_append]
    omega
  have hmapne : (recentFailures st now).map (fun a => a.timestamp) ≠ [] := by
    simpa using hne
  have hmin :
      listMin ((recentFailures (recordLoginAttempt st u false now) now).map
        fun a => a.timestamp) =
      listMin ((recentFailures st now).map fun a => a.timestamp) := by
    rw [hrf, List.map_append]
    rw [show (([⟨u, now, false⟩] : List LoginAttempt).map fun a => a.timestamp) = [now] from rfl]
    rw [listMin_append_single _ _ hmapne]
    apply min_eq_left
    obtain ⟨hmem, _⟩ := listMin_spec _ hmapne
    obtain ⟨a, ha, hat⟩ := List.mem_map.mp hmem
    have hst : a ∈ st := (List.mem_filter.mp ha).1
    rw [← hat]
    exact hts a hst
  refine ⟨by simp [isLoginLocked, h5], ?_⟩
  simp only [isLoginLocked, if_pos h5, if_pos h5', hmin]

/-- Witness for the amended C2 at a concrete log of five failures at
minutes 0..4, with the sixth failure recorded at 240 s. -/
theorem loginLock_sixth_attempt_witness :
    (isLoginLocked
      [⟨"u", 0, false⟩, ⟨"u", 60000, false⟩, ⟨"u", 120000, false⟩,
       ⟨"u", 180000, false⟩, ⟨"u", 240000, false⟩] 240000).locked = true ∧
    isLoginLocked (recordLoginAttempt
      [⟨"u", 0, false⟩, ⟨"u", 60000, false⟩, ⟨"u", 120000, false⟩,
       ⟨"u", 180000, false⟩, ⟨"u", 240000, false⟩] "u" false 240000) 240000 =
    isLoginLocked
      [⟨"u", 0, false⟩, ⟨"u", 60000, false⟩, ⟨"u", 120000, false⟩,
       ⟨"u", 180000, false⟩, ⟨"u", 240000, false⟩] 240000 :=
  loginLock_sixth_attempt
    [⟨"u", 0, false⟩, ⟨"u", 60000, false⟩, ⟨"u", 120000, false⟩,
     ⟨"u", 180000, false⟩, ⟨"u", 240000, false⟩] "u" 240000 (by decide) (by decide)

-- =============== C4 ===============

/-- C4: a session created at `T` has `expiresAt = T + 30` minutes and is
returned by `getSession` (store unchanged) at any time up to and including
`T + 30` minutes; strictly after that, `getSession` destroys the stored
session and returns none; `getSession` with no stored session returns
none. -/
theorem getSession_expiry (user : SessionUser) (token : String) (T t : Int) :
    (createSession user token T).expiresAt = T + SESSION_TIMEOUT_MS ∧
    (t ≤ T + SESSION_TIMEOUT_MS →
      getSession (some (createSession user token T)) t =
        (some (createSession user token T), some (createSession user token T))) ∧
    (T + SESSION_TIMEOUT_MS < t →
      getSession (some (createSession user token T)) t = (none, none)) ∧
    getSession (none : Option Session) t = (none, none) := by
  refine ⟨rfl, ?_, ?_, rfl⟩
  · intro h
    rw [getSession, if_neg]
    exact not_lt.mpr h
  · intro h
    rw [getSession, if_pos]
    exact h

/-- Witness for C4: session created at 0, read at 29 minutes (still there)
and at 31 minutes (destroyed, none returned). -/
theorem getSession_expiry_witness :
    getSession (some (createSession ⟨"owner", "owner", "O"⟩ "tok" 0)) (29 * 60000) =
      (some (createSession ⟨"owner", "owner", "O"⟩ "tok" 0),
       some (createSession ⟨"owner", "owner", "O"⟩ "tok" 0)) ∧
    getSession (some (createSession ⟨"owner", "owner", "O"⟩ "tok" 0)) (31 * 60000) =
      (none, none) :=
  ⟨(getSession_expiry ⟨"owner", "owner", "O"⟩ "tok" 0 (29 * 60000)).2.1 (by decide),
   (getSession_expiry ⟨"owner", "owner", "O"⟩ "tok" 0 (31 * 60000)).2.2.1 (by decide)⟩

-- =============== C6 ===============

/-- C6: the audit log after an append has at most 200 entries, the new
entry is at the head, the remainder is the first 199 old entries in order
(most recent first), and appending to a full log of 200 keeps the new head
and drops exactly the oldest (last) entry. -/
theorem auditLog_bounded (logs : List AuditEntry) (action details : String)
    (username : Option String) (timestamp userAgent : String) :
    (auditLog logs action details username timestamp userAgent).length ≤ 200 ∧
    (auditLog logs action details username timestamp userAgent).head? =
      some (mkAuditEntry action details username timestamp userAgent) ∧
    (auditLog logs action details username timestamp userAgent).tail = logs.take 199 ∧
    (logs.length = 200 →
      auditLog logs action details username timestamp userAgent =
        mkAuditEntry action details username timestamp userAgent :: logs.dropLast) := by
  have h200 : (200 : Nat) = 199 + 1 := by norm_num
  have htake : auditLog logs action details username timestamp userAgent =
      mkAuditEntry action details username timestamp userAgent :: logs.take 199 := by
    rw [auditLog, h200, List.take_succ_cons]
  refine ⟨?_, ?_, ?_, ?_⟩
  · rw [auditLog]
    exact List.length_take_le 200 _
  · rw [htake]
    rfl
  · rw [htake]
    rfl
  · intro hlen
    rw [htake, List.dropLast_eq_take, hlen]

/-- Witness for C6 at a full log: 200 identical entries, appending one
more evicts the last. -/
theorem auditLog_bounded_witness :
    auditLog (List.replicate 200 (mkAuditEntry "A" "d" none "t0" "ua"))
        "B" "d2" (some "alice") "t1" "ua" =
      mkAuditEntry "B" "d2" (some "alice") "t1" "ua" ::
        (List.replicate 200 (mkAuditEntry "A" "d" none "t0" "ua")).dropLast :=
  (auditLog_bounded (List.replicate 200 (mkAuditEntry "A" "d" none "t0" "ua"))
    "B" "d2" (some "alice") "t1" "ua").2.2.2 (List.length_replicate 200 _)

-- =============== C8 ===============

/-- C8 counterexample: with an expired session stored (expiresAt 1800000,
refresh at 1800001) no valid session exists, yet `refreshSession` is not a
write-free no-op: it returns none and the store changes from the expired
session to empty (the expired session is destroyed through `getSession`). -/
theorem refreshSession_counterexample :
    refreshSession (some (⟨"owner", "owner", "O", 0, 0, "t", 1800000⟩ : Session)) 1800001 =
      (none, none) ∧
    some (⟨"owner", "owner", "O", 0, 0, "t", 1800000⟩ : Session) ≠
      (none : Option Session) := by
  decide

/-- C8 amended: if a valid (non-expired) session exists, `refreshSession`
at `T'` returns and stores the session with `lastActivity = T'` and
`expiresAt = T' + 30` minutes (so a refresh at `T + 10` minutes extends
validity to `T + 40` minutes); with an empty store it returns none and
writes nothing; with an expired session stored it returns none and
destroys the stored session (this destruction is the one departure from
the claim's no-op wording). -/
theorem refreshSession_correct (store : Option Session) (now : Int) :
    (∀ s, store = some s → ¬ now > s.expiresAt →
      refreshSession store now =
        (some { s with lastActivity := now, expiresAt := now + SESSION_TIMEOUT_MS },
         some { s with lastActivity := now, expiresAt := now + SESSION_TIMEOUT_MS })) ∧
    (store = none → refreshSession store now = (none, none)) ∧
    (∀ s, store = some s → now > s.expiresAt → refreshSession store now = (none, none)) := by
  refine ⟨?_, ?_, ?_⟩
  · rintro s rfl h
    have hget : getSession (some s) now = (some s, some s) := by
      rw [getSession, if_neg h]
    rw [refreshSession, hget]
  · rintro rfl
    rfl
  · rintro s rfl h
    have hget : getSession (some s) now = (none, none) := by
      rw [getSession, if_pos h]
    rw [refreshSession, hget]

/-- Witness for the amended C8: a session created at 0 and refreshed at
10 minutes is stored with `expiresAt` = 40 minutes. -/
theorem refreshSession_correct_witness :
    refreshSession (some (createSession ⟨"owner", "owner", "O"⟩ "t" 0)) 600000 =
      (some (⟨"owner", "owner", "O", 0, 600000, "t", 2400000⟩ : Session),
       some (⟨"owner", "owner", "O", 0, 600000, "t", 2400000⟩ : Session)) := by
  have h := (refreshSession_correct
      (some (createSession ⟨"owner", "owner", "O"⟩ "t" 0)) 600000).1
    (createSession ⟨"owner", "owner", "O"⟩ "t" 0) rfl (by decide)
  rw [h]
  decide

-- =============== C3 ===============

/-- C3: for every password and every actually supplied salt (non-empty: JS
treats `""` as absent and would regenerate a random one),
`verifyPassword password (hashPassword password salt).hash salt` is true,
whatever salts `g1`/`g2` the generator would have produced; and under the
claim's hash-collision assumption — the digest `H` is injective — any
other password verifies false. -/
theorem verifyPassword_correct (H : String → String) (g1 g2 : String)
    (password salt : String) (hsalt : salt ≠ "") :
    verifyPassword H g2 password (hashPassword H g1 password (some salt)).1 (some salt) = true ∧
    (Function.Injective H → ∀ p2, p2 ≠ password →
      verifyPassword H g2 p2 (hashPassword H g1 password (some salt)).1 (some salt) = false) := by
  have htr : jsTruthy (some salt) = true := by
    simp [jsTruthy, hsalt]
  constructor
  · simp [verifyPassword, hashPassword, htr]
  · intro hinj p2 hp2
    have hne : salt ++ p2 ≠ salt ++ password := by
      intro heq
      apply hp2
      have hdata := congrArg String.data heq
      rw [String.data_append, String.data_append] at hdata
      have := List.append_cancel_left hdata
      exact String.ext this
    have hHne : H (salt ++ p2) ≠ H (salt ++ password) := fun h => hne (hinj h)
    simp [verifyPassword, hashPassword, htr]
    exact hHne

/-- Witness for C3 with the identity digest (injective), salt "s",
password "Correct1" and wrong password "Wrong1". -/
theorem verifyPassword_correct_witness :
    verifyPassword (fun s => s) "g2" "Correct1"
      (hashPassword (fun s => s) "g1" "Correct1" (some "s")).1 (some "s") = true ∧
    verifyPassword (fun s => s) "g2" "Wrong1"
      (hashPassword (fun s => s) "g1" "Correct1" (some "s")).1 (some "s") = false :=
  ⟨(verifyPassword_correct (fun s => s) "g1" "g2" "Correct1" "s" (by decide)).1,
   (verifyPassword_correct (fun s => s) "g1" "g2" "Correct1" "s" (by decide)).2
     (fun _ _ h => h) "Wrong1" (by decide)⟩

-- =============== C9 ===============

/-- C9: `migratePasswords` rewrites a record only if it holds a truthy
plaintext `password` and no truthy `passwordHash` (JS truthiness: absent
or `""`); a record already holding a `passwordHash` is untouched; a
rewritten record gets the hash and salt of the (weak-default-replaced)
password and loses the plaintext field; and running the migration on its
own output changes nothing, even with a different salt/digest supply `g`
on the second run. -/
theorem migratePasswords_idempotent (f g : String → String × String)
    (u : UserRec) (users : List UserRec) :
    (¬ (jsTruthy u.password = true ∧ jsTruthy u.passwordHash = false) →
      migrateUser f u = u) ∧
    (jsTruthy u.passwordHash = true → migrateUser f u = u) ∧
    (jsTruthy u.password = true → jsTruthy u.passwordHash = false →
      u.password.getD "" ∈ defaultWeakPasswords → u.role = "owner" →
      migrateUser f u =
        { u with passwordHash := some (f "Owner@123").1,
                 salt := some (f "Owner@123").2, password := none }) ∧
    (jsTruthy u.password = true → jsTruthy u.passwordHash = false →
      u.password.getD "" ∉ defaultWeakPasswords →
      migrateUser f u =
        { u with passwordHash := some (f (u.password.getD "")).1,
                 salt := some (f (u.password.getD "")).2, password := none }) ∧
    migratePasswords g (migratePasswords f users) = migratePasswords f users := by
  have hpoint : ∀ v : UserRec, migrateUser g (migrateUser f v) = migrateUser f v := by
    intro v
    by_cases hc : (jsTruthy v.password && !jsTruthy v.passwordHash) = true
    · have h1 : (migrateUser f v).password = none := by
        simp [migrateUser, hc]
      rw [migrateUser, if_neg]
      simp [h1, jsTruthy]
    · have h2 : migrateUser f v = v := by
        rw [migrateUser, if_neg hc]
      rw [h2, migrateUser, if_neg hc]
  refine ⟨?_, ?_, ?_, ?_, ?_⟩
  · intro hnc
    rw [migrateUser, if_neg]
    intro hc
    rcases Bool.and_eq_true _ _ |>.mp hc with ⟨h1, h2⟩
    exact hnc ⟨h1, by simpa using h2⟩
  · intro hh
    rw [migrateUser, if_neg]
    intro hc
    rcases Bool.and_eq_true _ _ |>.mp hc with ⟨_, h2⟩
    rw [hh] at h2
    simp at h2
  · intro hp hh hweak hrole
    simp [migrateUser, hp, hh, hweak, hrole]
  · intro hp hh hweak
    simp [migrateUser, hp, hh, hweak]
  · simp only [migratePasswords, List.map_map, Function.comp]
    exact List.map_congr_left fun v _ => hpoint v

/-- Witness for C9: a legacy owner record with the weak password
"owner123" is migrated to the strong default's hash and loses the
plaintext; the hash supply appends "#h" and salts with "s1". -/
theorem migratePasswords_idempotent_witness :
    migrateUser (fun pw => (pw ++ "#h", "s1"))
        (⟨"owner", "owner", "O", some "owner123", none, none⟩ : UserRec) =
      { (⟨"owner", "owner", "O", some "owner123", none, none⟩ : UserRec) with
        passwordHash := some ((fun pw => (pw ++ "#h", "s1")) "Owner@123").1,
        salt := some ((fun pw => (pw ++ "#h", "s1")) "Owner@123").2,
        password := none } :=
  (migratePasswords_idempotent (fun pw => (pw ++ "#h", "s1")) (fun pw => (pw, "s2"))
    (⟨"owner", "owner", "O", some "owner123", none, none⟩ : UserRec) []).2.2.1
    (by decide) (by decide) (by decide) rfl

-- =============== C7 ===============

/-- C7: whenever `isLoginLocked` reports locked, `login` returns failure —
whatever the password — and leaves both the attempt log and the session
store untouched (no attempt recorded, no session created); and in the
end-to-end scenario of five wrong-password logins within two minutes
(`demoState`), the limiter reports locked with at least one minute
remaining, no session exists, and a sixth login with the correct password
is rejected with both stores unchanged. -/
theorem login_locked_rejects :
    (∀ (H : String → String) (g : String) (users : List UserRec)
       (st : List LoginAttempt) (sess : Option Session)
       (u p r tok : String) (now : Int),
      (isLoginLocked st now).locked = true →
      login H g users st sess u p r tok now = (false, st, sess)) ∧
    (isLoginLocked demoState.1 120000).locked = true ∧
    (∃ m, (isLoginLocked demoState.1 120000).remainingMinutes = some m ∧ 1 ≤ m) ∧
    demoState.2 = none ∧
    login (fun s => s) "g" demoUsers demoState.1 demoState.2
        "owner" "Correct1" "owner" "tok" 120000 =
      (false, demoState.1, demoState.2) := by
  refine ⟨?_, by decide, ⟨3, by decide, by decide⟩, by decide, by decide⟩
  intro H g users st sess u p r tok now hl
  rw [login, if_pos]
  exact hl

/-- Witness for C7's universally quantified part, applied to the locked
`demoState` attempt log with an arbitrary digest and user store. -/
theorem login_locked_rejects_witness :
    login (fun s => s) "g" demoUsers demoState.1 (none : Option Session)
        "owner" "Correct1" "owner" "tok" 120000 =
      (false, demoState.1, (none : Option Session)) :=
  login_locked_rejects.1 (fun s => s) "g" demoUsers demoState.1 none
    "owner" "Correct1" "owner" "tok" 120000 (by decide)

-- =============== C10 ===============

/-- C10 counterexample: the empty password is invalid and violates the
lowercase-letter rule (it has no lowercase letter), yet the issues list
does not name that rule — only the minimum-length issue is reported
(the `password && ...` truthiness guards skip the character-class checks
for the empty string). -/
theorem validatePassword_counterexample :
    (validatePassword "").valid = false ∧
    hasLower "" = false ∧
    "Must contain at least one lowercase letter" ∉ (validatePassword "").issues ∧
    (validatePassword "").issues = ["Must be at least 6 characters"] := by
  decide

/-- C10 amended: `valid = true` exactly when the length is between 6 and
128 and the password has a lowercase letter, an uppercase letter and a
digit; when `valid = false` the issues list is non-empty; for a non-empty
password each violated rule is named by its message (and only violated
rules are named); for the empty password only the minimum-length rule is
reported. -/
theorem validatePassword_correct (p : String) :
    ((validatePassword p).valid = true ↔
      (6 ≤ p.length ∧ p.length ≤ 128 ∧ hasLower p = true ∧
       hasUpper p = true ∧ hasDigit p = true)) ∧
    ((validatePassword p).valid = false → (validatePassword p).issues ≠ []) ∧
    (p ≠ "" →
      ((p.length < 6 ↔ "Must be at least 6 characters" ∈ (validatePassword p).issues) ∧
       (128 < p.length ↔ "Must be under 128 characters" ∈ (validatePassword p).issues) ∧
       (hasLower p = false ↔
         "Must contain at least one lowercase letter" ∈ (validatePassword p).issues) ∧
       (hasUpper p = false ↔
         "Must contain at least one uppercase letter" ∈ (validatePassword p).issues) ∧
       (hasDigit p = false ↔
         "Must contain at least one number" ∈ (validatePassword p).issues))) ∧
    (p = "" → (validatePassword p).issues = ["Must be at least 6 characters"]) := by
  by_cases hp : p = ""
  · subst hp
    refine ⟨by decide, fun _ => by decide, fun h => absurd rfl h, fun _ => by decide⟩
  · refine ⟨?_, ?_, fun _ => ?_, fun h => absurd h hp⟩
    · by_cases h1 : p.length < 6 <;> by_cases h2 : 128 < p.length <;>
        by_cases h3 : hasLower p = true <;> by_cases h4 : hasUpper p = true <;>
        by_cases h5 : hasDigit p = true <;>
        simp_all [validatePassword]
    · by_cases h1 : p.length < 6 <;> by_cases h2 : 128 < p.length <;>
        by_cases h3 : hasLower p = true <;> by_cases h4 : hasUpper p = true <;>
        by_cases h5 : hasDigit p = true <;>
        simp_all [validatePassword]
    · by_cases h1 : p.length < 6 <;> by_cases h2 : 128 < p.length <;>
        by_cases h3 : hasLower p = true <;> by_cases h4 : hasUpper p = true <;>
        by_cases h5 : hasDigit p = true <;>
        simp_all [validatePassword]

/-- Witness for the amended C10 at the short password "Abc1" (length
violated, character classes satisfied) and at the empty password. -/
theorem validatePassword_correct_witness :
    (validatePassword "Abc1").issues ≠ [] ∧
    (("Abc1" : String).length < 6 ↔
      "Must be at least 6 characters" ∈ (validatePassword "Abc1").issues) ∧
    (validatePassword "").issues = ["Must be at least 6 characters"] :=
  ⟨(validatePassword_correct "Abc1").2.1 (by decide),
   ((validatePassword_correct "Abc1").2.2.1 (by decide)).1,
   (validatePassword_correct "").2.2.2 rfl⟩

-- =============== C5 ===============

/-- C5: with the platform guarantees taken as hypotheses at exactly the
values involved — base64 decoding inverts encoding on the salt, iv and
ciphertext; AES-GCM decryption with the derived key inverts encryption;
UTF-8 decoding inverts encoding; JSON parse inverts stringify; AES-GCM
rejects the key derived from the other passphrase; and AES-GCM rejects
the corrupted ciphertext — `decryptBackupData` of `encryptBackupData`
with the same passphrase reproduces the data exactly, with the other
passphrase it fails with none, and on the blob with corrupted ciphertext
it fails with none. The `Option` pipeline of `decryptBackupData`
propagates every failure, so none of the failing cases can yield partial
data. -/
theorem encryptDecrypt_roundtrip {α : Type} (P : CryptoPlatform α) (data : α)
    (pass pass2 : String) (salt iv tampered : List Nat)
    (hsalt : P.fromB64 (P.toB64 salt) = some salt)
    (hiv : P.fromB64 (P.toB64 iv) = some iv)
    (hct : P.fromB64 (P.toB64 (P.aeadEnc (P.kdf pass salt) iv
        (P.encode (P.stringify data)))) =
      some (P.aeadEnc (P.kdf pass salt) iv (P.encode (P.stringify data))))
    (hdec : P.aeadDec (P.kdf pass salt) iv
        (P.aeadEnc (P.kdf pass salt) iv (P.encode (P.stringify data))) =
      some (P.encode (P.stringify data)))
    (hutf : P.decode (P.encode (P.stringify data)) = some (P.stringify data))
    (hparse : P.parse (P.stringify data) = some data)
    (hwrong : P.aeadDec (P.kdf pass2 salt) iv
        (P.aeadEnc (P.kdf pass salt) iv (P.encode (P.stringify data))) = none)
    (htb : P.fromB64 (P.toB64 tampered) = some tampered)
    (htamper : P.aeadDec (P.kdf pass salt) iv tampered = none) :
    decryptBackupData P (encryptBackupData P data pass salt iv) pass = some data ∧
    decryptBackupData P (encryptBackupData P data pass salt iv) pass2 = none ∧
    decryptBackupData P
      { encryptBackupData P data pass salt iv with encrypted := P.toB64 tampered }
      pass = none := by
  refine ⟨?_, ?_, ?_⟩
  · simp [decryptBackupData, encryptBackupData, hsalt, hiv, hct, hdec, hutf, hparse]
  · simp [decryptBackupData, encryptBackupData, hsalt, hiv, hct, hwrong]
  · simp [decryptBackupData, encryptBackupData, hsalt, hiv, htb, htamper]

/-- Witness for C5 on the toy platform `demoPlatform`: data "hi",
passphrases "a" and "b", salt [1], iv [2], corrupted ciphertext []. -/
theorem encryptDecrypt_roundtrip_witness :
    decryptBackupData demoPlatform
        (encryptBackupData demoPlatform "hi" "a" [1] [2]) "a" = some "hi" ∧
    decryptBackupData demoPlatform
        (encryptBackupData demoPlatform "hi" "a" [1] [2]) "b" = none ∧
    decryptBackupData demoPlatform
        { encryptBackupData demoPlatform "hi" "a" [1] [2] with
          encrypted := demoPlatform.toB64 [] } "a" = none :=
  encryptDecrypt_roundtrip demoPlatform "hi" "a" "b" [1] [2] []
    (by decide) (by decide) (by decide) (by decide) (by decide) rfl
    (by decide) (by decide) (by decide)

end MilkSecurity
